import Mathlib

/-!
Shallow embedding of the physics core of the AstroForge repository
(`src/engine/physics.rs`).  Scalars (`f32` in the source) are modelled as
exact rationals `ℚ`; every operation of the core is translated as a pure
state-passing function.  The Rust mutation `body.force.y -= m * G` becomes
a record update, the `for` loops become folds, and the pairwise pass of
`step` (which splits the slice to obtain two disjoint mutable borrows)
becomes a fold over the lexicographically ordered index pairs updating a
list of objects functionally.
-/

namespace AstroForge

/-- `glam::Vec3`, with `f32` components modelled as `ℚ`. -/
structure Vec3 where
  x : ℚ
  y : ℚ
  z : ℚ
deriving DecidableEq, Repr

namespace Vec3

def zero : Vec3 := ⟨0, 0, 0⟩

def add (a b : Vec3) : Vec3 := ⟨a.x + b.x, a.y + b.y, a.z + b.z⟩

def sub (a b : Vec3) : Vec3 := ⟨a.x - b.x, a.y - b.y, a.z - b.z⟩

/-- Absolute value on the scalar type, written as a conditional so that
concrete runs evaluate; `rabs_eq_abs` identifies it with `|·|`. -/
def rabs (q : ℚ) : ℚ := if q < 0 then -q else q

/-- Component-wise absolute value, `Vec3::abs`. -/
def abs2 (a : Vec3) : Vec3 := ⟨rabs a.x, rabs a.y, rabs a.z⟩

/-- Scalar multiplication `v * c`. -/
def smul (a : Vec3) (c : ℚ) : Vec3 := ⟨a.x * c, a.y * c, a.z * c⟩

/-- Scalar division `v / c`. -/
def sdiv (a : Vec3) (c : ℚ) : Vec3 := ⟨a.x / c, a.y / c, a.z / c⟩

end Vec3

/-- `pub const GRAVITY: f32 = 9.81;` -/
def GRAVITY : ℚ := 981 / 100

/-- `pub struct Collider { pub half_extents: Vec3 }` -/
structure Collider where
  half_extents : Vec3
deriving DecidableEq, Repr

/-- `pub struct RigidBody` -/
structure RigidBody where
  position : Vec3
  velocity : Vec3
  on_ground : Bool
  mass : ℚ
  force : Vec3
deriving DecidableEq, Repr

/-- `RigidBody::new(mass, position)` -/
def RigidBody.new (mass : ℚ) (position : Vec3) : RigidBody :=
  { position := position
    velocity := Vec3.zero
    on_ground := false
    mass := mass
    force := Vec3.zero }

/-- `RigidBody::apply_force` -/
def RigidBody.apply_force (self : RigidBody) (force : Vec3) : RigidBody :=
  { self with force := self.force.add force }

/-- `RigidBody::apply_impulse` -/
def RigidBody.apply_impulse (self : RigidBody) (impulse : Vec3) : RigidBody :=
  { self with velocity := self.velocity.add (impulse.sdiv self.mass) }

/-- `pub struct Aabb { pub center: Vec3, pub half_extents: Vec3 }` -/
structure Aabb where
  center : Vec3
  half_extents : Vec3
deriving DecidableEq, Repr

/-- `pub fn apply_gravity(body: &mut RigidBody)` -/
def apply_gravity (body : RigidBody) : RigidBody :=
  if !body.on_ground then
    { body with force := { body.force with y := body.force.y - body.mass * GRAVITY } }
  else
    body

/-- `pub fn integrate(body: &mut RigidBody, dt: f32)` : semi-implicit Euler,
velocity updated from acceleration first, then position from the new
velocity, then the force accumulator cleared. -/
def integrate (body : RigidBody) (dt : ℚ) : RigidBody :=
  let acceleration := body.force.sdiv body.mass
  let velocity := body.velocity.add (acceleration.smul dt)
  let position := body.position.add (velocity.smul dt)
  { body with velocity := velocity, position := position, force := Vec3.zero }

/-- `let delta = body.position - obs.center;` of `resolve_aabb_collisions`. -/
def deltaOf (body : RigidBody) (obs : Aabb) : Vec3 :=
  body.position.sub obs.center

/-- `let overlap = collider.half_extents + obs.half_extents - delta.abs();`
of `resolve_aabb_collisions`. -/
def overlapOf (body : RigidBody) (collider : Collider) (obs : Aabb) : Vec3 :=
  (collider.half_extents.add obs.half_extents).sub (deltaOf body obs).abs2

/-- The body of the `for obs in obstacles` loop of
`resolve_aabb_collisions`: resolution of one body against one obstacle. -/
def resolve_one (body : RigidBody) (collider : Collider) (obs : Aabb) : RigidBody :=
  let delta := deltaOf body obs
  let overlap := overlapOf body collider obs
  if overlap.x > 0 ∧ overlap.y > 0 ∧ overlap.z > 0 then
    if overlap.x < overlap.y ∧ overlap.x < overlap.z then
      let sign : ℚ := if delta.x > 0 then 1 else -1
      { body with
        position := { body.position with
          x := obs.center.x + sign * (obs.half_extents.x + collider.half_extents.x) }
        velocity := { body.velocity with x := 0 } }
    else if overlap.y < overlap.z then
      let sign : ℚ := if delta.y > 0 then 1 else -1
      { body with
        position := { body.position with
          y := obs.center.y + sign * (obs.half_extents.y + collider.half_extents.y) }
        velocity := { body.velocity with y := 0 }
        on_ground := if sign > 0 then true else body.on_ground }
    else
      let sign : ℚ := if delta.z > 0 then 1 else -1
      { body with
        position := { body.position with
          z := obs.center.z + sign * (obs.half_extents.z + collider.half_extents.z) }
        velocity := { body.velocity with z := 0 } }
  else
    body

/-- `pub fn resolve_aabb_collisions(body, collider, obstacles)`: obstacles
processed in list order, each resolution operating on the already-adjusted
body. -/
def resolve_aabb_collisions (body : RigidBody) (collider : Collider)
    (obstacles : List Aabb) : RigidBody :=
  obstacles.foldl (fun b obs => resolve_one b collider obs) body

/-- `pub struct PhysicsObject` (the mutable borrow of the body becomes the
body value itself). -/
structure PhysicsObject where
  body : RigidBody
  collider : Collider
deriving DecidableEq, Repr

/-- `let delta = a.body.position - b.body.position;` of `resolve_pair`. -/
def pairDelta (a b : PhysicsObject) : Vec3 :=
  a.body.position.sub b.body.position

/-- `let overlap = a.collider.half_extents + b.collider.half_extents -
delta.abs();` of `resolve_pair`. -/
def pairOverlap (a b : PhysicsObject) : Vec3 :=
  (a.collider.half_extents.add b.collider.half_extents).sub (pairDelta a b).abs2

/-- `pub fn resolve_pair(a, b) -> bool`: returns the two updated objects
together with whether a collision occurred. -/
def resolve_pair (a b : PhysicsObject) : PhysicsObject × PhysicsObject × Bool :=
  let delta := pairDelta a b
  let overlap := pairOverlap a b
  if overlap.x > 0 ∧ overlap.y > 0 ∧ overlap.z > 0 then
    if overlap.x < overlap.y ∧ overlap.x < overlap.z then
      let sign : ℚ := if delta.x > 0 then 1 else -1
      let push := overlap.x * (1 / 2)
      (⟨{ a.body with
            position := { a.body.position with x := a.body.position.x + sign * push }
            velocity := { a.body.velocity with x := 0 } }, a.collider⟩,
       ⟨{ b.body with
            position := { b.body.position with x := b.body.position.x - sign * push }
            velocity := { b.body.velocity with x := 0 } }, b.collider⟩,
       true)
    else if overlap.y < overlap.z then
      let sign : ℚ := if delta.y > 0 then 1 else -1
      let push := overlap.y * (1 / 2)
      (⟨{ a.body with
            position := { a.body.position with y := a.body.position.y + sign * push }
            velocity := { a.body.velocity with y := 0 } }, a.collider⟩,
       ⟨{ b.body with
            position := { b.body.position with y := b.body.position.y - sign * push }
            velocity := { b.body.velocity with y := 0 } }, b.collider⟩,
       true)
    else
      let sign : ℚ := if delta.z > 0 then 1 else -1
      let push := overlap.z * (1 / 2)
      (⟨{ a.body with
            position := { a.body.position with z := a.body.position.z + sign * push }
            velocity := { a.body.velocity with z := 0 } }, a.collider⟩,
       ⟨{ b.body with
            position := { b.body.position with z := b.body.position.z - sign * push }
            velocity := { b.body.velocity with z := 0 } }, b.collider⟩,
       true)
  else
    (a, b, false)

/-- Default object used only to give total accessors to the list of
objects; every access in `step` is in range. -/
def defaultObject : PhysicsObject :=
  ⟨RigidBody.new 1 Vec3.zero, ⟨Vec3.zero⟩⟩

/-- First phase of `step`: `apply_gravity → integrate →
resolve_aabb_collisions` for every object, in order. -/
def staticPass (objects : List PhysicsObject) (static_obs : List Aabb)
    (dt : ℚ) : List PhysicsObject :=
  objects.map (fun obj =>
    let b := resolve_aabb_collisions (integrate (apply_gravity obj.body) dt)
      obj.collider static_obs
    { obj with body := b })

/-- The index pairs `(i, j)`, `i < j`, visited by the two nested loops of
`step`, in the loops' order. -/
def pairIndices (n : Nat) : List (Nat × Nat) :=
  (List.range n).flatMap (fun i =>
    (List.range' (i + 1) (n - (i + 1))).map (fun j => (i, j)))

/-- The body of the inner loop of `step`: resolve objects `i` and `j`
in place and record the pair when a collision occurred. -/
def pairStep (st : List PhysicsObject × List (Nat × Nat)) (ij : Nat × Nat) :
    List PhysicsObject × List (Nat × Nat) :=
  let a := st.1.getD ij.1 defaultObject
  let b := st.1.getD ij.2 defaultObject
  let r := resolve_pair a b
  ((st.1.set ij.1 r.1).set ij.2 r.2.1,
   if r.2.2 then st.2 ++ [ij] else st.2)

/-- Second phase of `step`: the two nested loops over all pairs
`(i, j)`, `i < j`, in ascending order. -/
def pairPass (objects : List PhysicsObject) :
    List PhysicsObject × List (Nat × Nat) :=
  (pairIndices objects.length).foldl pairStep (objects, [])

/-- `pub fn step(objects, static_obs, dt) -> Vec<(usize, usize)>`, returning
the final objects together with the collision pairs. -/
def step (objects : List PhysicsObject) (static_obs : List Aabb) (dt : ℚ) :
    List PhysicsObject × List (Nat × Nat) :=
  pairPass (staticPass objects static_obs dt)

/-! The concrete scenario of `tests/enemy_stability.rs`: a body of mass 80
starting at `(8.0, 0.75, -8.0)` with collider half-extents
`(0.5, 0.75, 0.5)`, stepped at `dt = 1/60` against the single floor
obstacle centered `(0.0, -0.5, 0.0)` with half-extents `(50.0, 0.5, 50.0)`. -/

def enemyBody0 : RigidBody := RigidBody.new 80 ⟨8, 3 / 4, -8⟩

def enemyCollider : Collider := ⟨⟨1 / 2, 3 / 4, 1 / 2⟩⟩

def floorObs : Aabb := ⟨⟨0, -(1 / 2), 0⟩, ⟨50, 1 / 2, 50⟩⟩

/-- One iteration of the loop of `enemy_position_stability`: the body after
one `step` with the single object and the single floor obstacle. -/
def enemyStep (b : RigidBody) : RigidBody :=
  ((step [⟨b, enemyCollider⟩] [floorObs] (1 / 60)).1.getD 0 defaultObject).body

/-- The body after `n` frames of the stability scenario. -/
def enemyTrace (n : Nat) : RigidBody :=
  enemyStep^[n] enemyBody0

/-- The settled state of the stability scenario: resting exactly on the
floor top, zero velocity, grounded. -/
def enemyLanded : RigidBody :=
  { position := ⟨8, 3 / 4, -8⟩
    velocity := ⟨0, 0, 0⟩
    on_ground := true
    mass := 80
    force := ⟨0, 0, 0⟩ }

/-! A concrete three-object scenario for the pair-reporting property of
`step`: with `dt = 0` and no obstacles the static pass moves nothing, and
only objects 0 and 2 overlap. -/

def cube : Collider := ⟨⟨3 / 4, 3 / 4, 3 / 4⟩⟩

def threeObjects : List PhysicsObject :=
  [⟨RigidBody.new 1 ⟨0, 0, 0⟩, cube⟩,
   ⟨RigidBody.new 1 ⟨10, 0, 0⟩, cube⟩,
   ⟨RigidBody.new 1 ⟨1, 0, 0⟩, cube⟩]

/-! ### Helper lemmas -/

theorem rabs_eq_abs (q : ℚ) : Vec3.rabs q = |q| := by
  unfold Vec3.rabs
  rcases lt_or_le q 0 with h | h
  · rw [if_pos h, abs_of_neg h]
  · rw [if_neg (not_lt.mpr h), abs_of_nonneg h]

theorem apply_gravity_of_grounded {body : RigidBody} (h : body.on_ground = true) :
    apply_gravity body = body := by
  obtain ⟨p, v, g, m, f⟩ := body
  cases g
  · exact absurd h (by simp)
  · rfl

theorem apply_gravity_on_ground (body : RigidBody) :
    (apply_gravity body).on_ground = body.on_ground := by
  obtain ⟨p, v, g, m, f⟩ := body
  cases g <;> rfl

theorem integrate_on_ground (body : RigidBody) (dt : ℚ) :
    (integrate body dt).on_ground = body.on_ground := rfl

theorem resolve_one_on_ground {body : RigidBody} (collider : Collider) (obs : Aabb)
    (h : body.on_ground = true) :
    (resolve_one body collider obs).on_ground = true := by
  unfold resolve_one
  dsimp only
  split_ifs <;> simp_all

theorem resolve_aabb_collisions_singleton (body : RigidBody) (collider : Collider)
    (obs : Aabb) :
    resolve_aabb_collisions body collider [obs] = resolve_one body collider obs := rfl

theorem resolve_aabb_collisions_on_ground {body : RigidBody} (collider : Collider)
    (obstacles : List Aabb) (h : body.on_ground = true) :
    (resolve_aabb_collisions body collider obstacles).on_ground = true := by
  induction obstacles generalizing body with
  | nil => exact h
  | cons o l ih =>
      exact ih (resolve_one_on_ground collider o h)

theorem resolve_one_of_no_overlap {body : RigidBody} {collider : Collider} {obs : Aabb}
    (h : ¬((overlapOf body collider obs).x > 0 ∧ (overlapOf body collider obs).y > 0 ∧
      (overlapOf body collider obs).z > 0)) :
    resolve_one body collider obs = body := by
  unfold resolve_one
  rw [if_neg h]

theorem resolve_pair_of_no_overlap {a b : PhysicsObject}
    (h : ¬((pairOverlap a b).x > 0 ∧ (pairOverlap a b).y > 0 ∧ (pairOverlap a b).z > 0)) :
    resolve_pair a b = (a, b, false) := by
  unfold resolve_pair
  rw [if_neg h]

theorem resolve_pair_on_ground_fst (a b : PhysicsObject) :
    (resolve_pair a b).1.body.on_ground = a.body.on_ground := by
  unfold resolve_pair
  dsimp only
  split_ifs <;> rfl

theorem resolve_pair_on_ground_snd (a b : PhysicsObject) :
    (resolve_pair a b).2.1.body.on_ground = b.body.on_ground := by
  unfold resolve_pair
  dsimp only
  split_ifs <;> rfl

theorem resolve_pair_collider_fst (a b : PhysicsObject) :
    (resolve_pair a b).1.collider = a.collider := by
  unfold resolve_pair
  dsimp only
  split_ifs <;> rfl

theorem resolve_pair_collider_snd (a b : PhysicsObject) :
    (resolve_pair a b).2.1.collider = b.collider := by
  unfold resolve_pair
  dsimp only
  split_ifs <;> rfl

theorem set_getD_self {α : Type} (l : List α) (i : Nat) (d : α) :
    l.set i (l.getD i d) = l := by
  rcases lt_or_le i l.length with h | h
  · apply List.ext_getElem?
    intro n
    rw [List.getElem?_set]
    rcases eq_or_ne i n with rfl | hne
    · rw [if_pos rfl, if_pos h, List.getD_eq_getElem l d h, List.getElem?_eq_getElem h]
    · rw [if_neg hne]
  · exact List.set_eq_of_length_le h

theorem pairStep_length (st : List PhysicsObject × List (Nat × Nat)) (ij : Nat × Nat) :
    (pairStep st ij).1.length = st.1.length := by
  unfold pairStep
  rw [List.length_set, List.length_set]

theorem pairStep_getD_on_ground (st : List PhysicsObject × List (Nat × Nat))
    (ij : Nat × Nat) (i : Nat)
    (h : (st.1.getD i defaultObject).body.on_ground = true) :
    ((pairStep st ij).1.getD i defaultObject).body.on_ground = true := by
  rcases lt_or_le i st.1.length with hi | hi
  · unfold pairStep
    rw [List.getD_eq_getElem?_getD, List.getElem?_set, List.getElem?_set, List.length_set]
    rcases eq_or_ne ij.2 i with rfl | h2
    · rw [if_pos rfl, if_pos hi]
      simpa [resolve_pair_on_ground_snd] using h
    · rw [if_neg h2]
      rcases eq_or_ne ij.1 i with rfl | h1
      · rw [if_pos rfl, if_pos hi]
        simpa [resolve_pair_on_ground_fst] using h
      · rw [if_neg h1, ← List.getD_eq_getElem?_getD]
        exact h
  · rw [List.getD_eq_default _ _ hi] at h
    rw [List.getD_eq_default _ _ (by rw [pairStep_length]; exact hi)]
    exact h

theorem foldl_pairStep_getD_on_ground (l : List (Nat × Nat))
    (st : List PhysicsObject × List (Nat × Nat)) (i : Nat)
    (h : (st.1.getD i defaultObject).body.on_ground = true) :
    ((l.foldl pairStep st).1.getD i defaultObject).body.on_ground = true := by
  induction l generalizing st with
  | nil => exact h
  | cons ij l ih =>
      rw [List.foldl_cons]
      exact ih _ (pairStep_getD_on_ground st ij i h)

theorem staticPass_getD (objects : List PhysicsObject) (static_obs : List Aabb)
    (dt : ℚ) (i : Nat) (hi : i < objects.length) :
    (staticPass objects static_obs dt).getD i defaultObject =
      { objects.getD i defaultObject with body :=
          (resolve_aabb_collisions
            (integrate (apply_gravity (objects.getD i defaultObject).body) dt)
            (objects.getD i defaultObject).collider static_obs) } := by
  unfold staticPass
  rw [List.getD_eq_getElem?_getD, List.getElem?_map, List.getElem?_eq_getElem hi,
    List.getD_eq_getElem _ _ hi]
  rfl

theorem step_getD_on_ground (objects : List PhysicsObject) (static_obs : List Aabb)
    (dt : ℚ) (i : Nat) (hi : i < objects.length)
    (h : (objects.getD i defaultObject).body.on_ground = true) :
    (((step objects static_obs dt).1.getD i defaultObject).body.on_ground = true) := by
  unfold step pairPass
  apply foldl_pairStep_getD_on_ground
  rw [staticPass_getD objects static_obs dt i hi]
  exact resolve_aabb_collisions_on_ground _ _
    (by rw [integrate_on_ground, apply_gravity_on_ground]; exact h)

theorem staticPass_length (objects : List PhysicsObject) (static_obs : List Aabb)
    (dt : ℚ) : (staticPass objects static_obs dt).length = objects.length := by
  unfold staticPass
  exact List.length_map _ _

theorem pairStep_snd_eq (st : List PhysicsObject × List (Nat × Nat)) (ij : Nat × Nat) :
    (pairStep st ij).2 =
      if (resolve_pair (st.1.getD ij.1 defaultObject)
          (st.1.getD ij.2 defaultObject)).2.2 = true
      then st.2 ++ [ij] else st.2 := rfl

theorem foldl_pairStep_pairs (l : List (Nat × Nat))
    (st : List PhysicsObject × List (Nat × Nat)) :
    ∃ t, (l.foldl pairStep st).2 = st.2 ++ t ∧ t.Sublist l := by
  induction l generalizing st with
  | nil => exact ⟨[], by simp⟩
  | cons ij l ih =>
      rw [List.foldl_cons]
      obtain ⟨t, ht, hs⟩ := ih (pairStep st ij)
      rw [pairStep_snd_eq] at ht
      by_cases hc : (resolve_pair (st.1.getD ij.1 defaultObject)
          (st.1.getD ij.2 defaultObject)).2.2 = true
      · refine ⟨ij :: t, ?_, List.Sublist.cons₂ ij hs⟩
        rw [ht, if_pos hc, List.append_assoc]
        rfl
      · refine ⟨t, ?_, List.Sublist.cons ij hs⟩
        rw [ht, if_neg hc]

theorem pairIndices_fst_lt_snd {n : Nat} {p : Nat × Nat} (h : p ∈ pairIndices n) :
    p.1 < p.2 := by
  unfold pairIndices at h
  rw [List.mem_flatMap] at h
  obtain ⟨i, hi, hmem⟩ := h
  rw [List.mem_map] at hmem
  obtain ⟨j, hj, rfl⟩ := hmem
  rw [List.mem_range'] at hj
  obtain ⟨k, hk, rfl⟩ := hj
  simp only []
  omega

theorem pairIndices_pairwise (n : Nat) :
    (pairIndices n).Pairwise
      (fun p q => p.1 < q.1 ∨ (p.1 = q.1 ∧ p.2 < q.2)) := by
  unfold pairIndices
  rw [List.flatMap_def, List.pairwise_flatten]
  constructor
  · intro l hl
    rw [List.mem_map] at hl
    obtain ⟨i, hi, rfl⟩ := hl
    rw [List.pairwise_map]
    exact (List.pairwise_lt_range' _ _).imp (fun hab => Or.inr ⟨rfl, hab⟩)
  · rw [List.pairwise_map]
    refine (List.pairwise_lt_range n).imp ?_
    intro i1 i2 h12 x hx y hy
    rw [List.mem_map] at hx hy
    obtain ⟨j1, _, rfl⟩ := hx
    obtain ⟨j2, _, rfl⟩ := hy
    exact Or.inl h12

theorem step_pairs_sublist (objects : List PhysicsObject) (static_obs : List Aabb)
    (dt : ℚ) :
    (step objects static_obs dt).2.Sublist (pairIndices objects.length) := by
  unfold step pairPass
  obtain ⟨t, ht, hs⟩ := foldl_pairStep_pairs
    (pairIndices (staticPass objects static_obs dt).length)
    (staticPass objects static_obs dt, [])
  rw [ht, List.nil_append, staticPass_length] at *
  exact hs

theorem pairStep_of_no_overlap (st : List PhysicsObject × List (Nat × Nat))
    (ij : Nat × Nat)
    (h : ¬((pairOverlap (st.1.getD ij.1 defaultObject) (st.1.getD ij.2 defaultObject)).x > 0 ∧
      (pairOverlap (st.1.getD ij.1 defaultObject) (st.1.getD ij.2 defaultObject)).y > 0 ∧
      (pairOverlap (st.1.getD ij.1 defaultObject) (st.1.getD ij.2 defaultObject)).z > 0)) :
    pairStep st ij = st := by
  unfold pairStep
  dsimp only
  rw [resolve_pair_of_no_overlap h]
  rw [set_getD_self, set_getD_self]
  simp

theorem pairIndices_nodup (n : Nat) : (pairIndices n).Nodup := by
  refine (pairIndices_pairwise n).imp ?_
  intro a b h heq
  subst heq
  rcases h with h | ⟨_, h⟩ <;> exact lt_irrefl _ h

theorem foldl_pairStep_mem_iff (l : List (Nat × Nat))
    (st : List PhysicsObject × List (Nat × Nat)) (p : Nat × Nat) (hp : p ∉ l) :
    (p ∈ (l.foldl pairStep st).2 ↔ p ∈ st.2) := by
  obtain ⟨t, ht, hs⟩ := foldl_pairStep_pairs l st
  rw [ht, List.mem_append]
  constructor
  · rintro (h | h)
    · exact h
    · exact absurd (hs.subset h) hp
  · exact Or.inl

/-- The pair list of `step`, characterised pointwise: a pair `p` of the
loop's index sequence (split as `l₁ ++ p :: l₂`) is reported exactly when
`resolve_pair` detects a collision on the object states current at the
moment `p` is visited, i.e. after the static pass and the resolution of
all earlier pairs `l₁`. -/
theorem step_mem_pairs_iff (objects : List PhysicsObject) (static_obs : List Aabb)
    (dt : ℚ) (l₁ : List (Nat × Nat)) (p : Nat × Nat) (l₂ : List (Nat × Nat))
    (hsplit : pairIndices objects.length = l₁ ++ p :: l₂) :
    (p ∈ (step objects static_obs dt).2 ↔
      (resolve_pair
        ((l₁.foldl pairStep (staticPass objects static_obs dt, [])).1.getD p.1 defaultObject)
        ((l₁.foldl pairStep (staticPass objects static_obs dt, [])).1.getD p.2 defaultObject)).2.2
        = true) := by
  have hnd := pairIndices_nodup objects.length
  rw [hsplit, List.nodup_append] at hnd
  obtain ⟨hnd1, hnd2, hdisj⟩ := hnd
  have hp1 : p ∉ l₁ := fun hmem => hdisj hmem (List.mem_cons_self p l₂)
  have hp2 : p ∉ l₂ := (List.nodup_cons.mp hnd2).1
  unfold step pairPass
  rw [staticPass_length, hsplit, List.foldl_append, List.foldl_cons]
  rw [foldl_pairStep_mem_iff _ _ _ hp2, pairStep_snd_eq]
  obtain ⟨t₁, ht₁, hs₁⟩ :=
    foldl_pairStep_pairs l₁ (staticPass objects static_obs dt, [])
  have hpst : p ∉ (l₁.foldl pairStep
      (staticPass objects static_obs dt, ([] : List (Nat × Nat)))).2 := by
    rw [ht₁, List.nil_append]
    exact fun h => hp1 (hs₁.subset h)
  by_cases hdet : (resolve_pair
      ((l₁.foldl pairStep (staticPass objects static_obs dt, [])).1.getD p.1 defaultObject)
      ((l₁.foldl pairStep (staticPass objects static_obs dt, [])).1.getD p.2 defaultObject)).2.2
      = true
  · rw [if_pos hdet]
    exact iff_of_true (List.mem_append_right _ (List.mem_singleton.mpr rfl)) hdet
  · rw [if_neg hdet]
    exact iff_of_false hpst hdet

theorem vec_zero_add (v : Vec3) : Vec3.zero.add v = v := by
  cases v
  simp [Vec3.add, Vec3.zero]

theorem foldl_pairStep_const (l : List (Nat × Nat))
    (st : List PhysicsObject × List (Nat × Nat))
    (h : ∀ ij ∈ l, pairStep st ij = st) : l.foldl pairStep st = st := by
  induction l with
  | nil => rfl
  | cons ij l ih =>
      rw [List.foldl_cons, h ij (List.mem_cons_self ij l)]
      exact ih (fun x hx => h x (List.mem_cons_of_mem ij hx))

/-! ### Claim theorems -/

/-- C1: for every body falling onto a static floor `Aabb` from above
(downward vertical velocity, the Y axis selected by the minimum-overlap test
as the separation axis, the body's center above the obstacle's center),
`resolve_aabb_collisions` ends the frame with `velocity.y = 0`,
`on_ground = true`, and `position.y` equal to the floor top
(`center.y + half_extents.y`) plus the collider's half-height. -/
theorem c1_ground_landing (body : RigidBody) (collider : Collider) (floor : Aabb)
    (hfall : body.velocity.y < 0)
    (hcol : (overlapOf body collider floor).x > 0 ∧
      (overlapOf body collider floor).y > 0 ∧ (overlapOf body collider floor).z > 0)
    (hnotx : ¬((overlapOf body collider floor).x < (overlapOf body collider floor).y ∧
      (overlapOf body collider floor).x < (overlapOf body collider floor).z))
    (hyz : (overlapOf body collider floor).y < (overlapOf body collider floor).z)
    (habove : (deltaOf body floor).y > 0) :
    (resolve_aabb_collisions body collider [floor]).velocity.y = 0 ∧
    (resolve_aabb_collisions body collider [floor]).on_ground = true ∧
    (resolve_aabb_collisions body collider [floor]).position.y =
      floor.center.y + floor.half_extents.y + collider.half_extents.y := by
  rw [resolve_aabb_collisions_singleton]
  unfold resolve_one
  dsimp only
  rw [if_pos hcol, if_neg hnotx, if_pos hyz, if_pos habove]
  refine ⟨rfl, by norm_num, ?_⟩
  dsimp only
  ring

/-- Witness for C1: a unit cube of mass 1 falling with velocity `-1` onto a
floor slab, landing at height `3/2`. -/
theorem c1_ground_landing_witness :
    (resolve_aabb_collisions
      ⟨⟨0, 6 / 5, 0⟩, ⟨0, -1, 0⟩, false, 1, Vec3.zero⟩
      ⟨⟨1 / 2, 1 / 2, 1 / 2⟩⟩ [⟨⟨0, 0, 0⟩, ⟨10, 1, 10⟩⟩]).velocity.y = 0 ∧
    (resolve_aabb_collisions
      ⟨⟨0, 6 / 5, 0⟩, ⟨0, -1, 0⟩, false, 1, Vec3.zero⟩
      ⟨⟨1 / 2, 1 / 2, 1 / 2⟩⟩ [⟨⟨0, 0, 0⟩, ⟨10, 1, 10⟩⟩]).on_ground = true ∧
    (resolve_aabb_collisions
      ⟨⟨0, 6 / 5, 0⟩, ⟨0, -1, 0⟩, false, 1, Vec3.zero⟩
      ⟨⟨1 / 2, 1 / 2, 1 / 2⟩⟩ [⟨⟨0, 0, 0⟩, ⟨10, 1, 10⟩⟩]).position.y =
      (0 : ℚ) + 1 + 1 / 2 := by
  exact c1_ground_landing _ _ _
    (by norm_num)
    (by norm_num [overlapOf, deltaOf, Vec3.abs2, Vec3.add, Vec3.sub, Vec3.rabs])
    (by norm_num [overlapOf, deltaOf, Vec3.abs2, Vec3.add, Vec3.sub, Vec3.rabs])
    (by norm_num [overlapOf, deltaOf, Vec3.abs2, Vec3.add, Vec3.sub, Vec3.rabs])
    (by norm_num [deltaOf, Vec3.sub])

/-- C2 counterexample: a body entering `step` with `on_ground = true`, with
no obstacle and no partner, undergoes no collision resolution, yet ends the
step with `on_ground = true` — the claim says every object's `on_ground` is
cleared at the start of the step, which would make it end `false`. -/
theorem c2_counterexample :
    ((step [⟨⟨⟨0, 5, 0⟩, ⟨0, 0, 0⟩, true, 1, ⟨0, 0, 0⟩⟩, ⟨⟨1 / 2, 1 / 2, 1 / 2⟩⟩⟩]
        [] (1 / 60)).1.getD 0 defaultObject).body.on_ground = true := by
  norm_num [step, staticPass, pairPass, pairIndices, pairStep,
    resolve_aabb_collisions, integrate, apply_gravity, Vec3.add, Vec3.sub,
    Vec3.smul, Vec3.sdiv, Vec3.zero, List.getD, List.range_succ]

/-- C2 amended: `on_ground` is false by default only at construction
(`RigidBody::new`); `step` never clears it, so a body that enters a step
with `on_ground = true` ends the step with `on_ground = true` — the core
never resets the flag. -/
theorem c2_amended :
    (∀ (m : ℚ) (p : Vec3), (RigidBody.new m p).on_ground = false) ∧
    (∀ (objects : List PhysicsObject) (static_obs : List Aabb) (dt : ℚ) (i : Nat),
      i < objects.length →
      (objects.getD i defaultObject).body.on_ground = true →
      ((step objects static_obs dt).1.getD i defaultObject).body.on_ground = true) :=
  ⟨fun _ _ => rfl,
   fun objects static_obs dt i hi h => step_getD_on_ground objects static_obs dt i hi h⟩

/-- Witness for C2 amended: a freshly constructed body is not grounded, and
a concrete grounded body stays grounded through a step. -/
theorem c2_amended_witness :
    (RigidBody.new 1 ⟨0, 0, 0⟩).on_ground = false ∧
    ((step [⟨⟨⟨0, 5, 0⟩, ⟨0, 0, 0⟩, true, 1, ⟨0, 0, 0⟩⟩, ⟨⟨1, 1, 1⟩⟩⟩]
        [] 1).1.getD 0 defaultObject).body.on_ground = true :=
  ⟨c2_amended.1 1 ⟨0, 0, 0⟩,
   c2_amended.2 _ [] 1 0 (by norm_num) rfl⟩

/-- C3: `on_ground = true` is preserved by every operation of the physics
core — `apply_gravity` (which is then the identity, adding no gravity to
the force), `integrate`, `resolve_aabb_collisions`, `resolve_pair` (which
never changes either flag), and `step` (per object). -/
theorem c3_on_ground_invariant :
    (∀ body : RigidBody, body.on_ground = true → apply_gravity body = body) ∧
    (∀ (body : RigidBody) (dt : ℚ), (integrate body dt).on_ground = body.on_ground) ∧
    (∀ (body : RigidBody) (collider : Collider) (obstacles : List Aabb),
      body.on_ground = true →
      (resolve_aabb_collisions body collider obstacles).on_ground = true) ∧
    (∀ a b : PhysicsObject,
      (resolve_pair a b).1.body.on_ground = a.body.on_ground ∧
      (resolve_pair a b).2.1.body.on_ground = b.body.on_ground) ∧
    (∀ (objects : List PhysicsObject) (static_obs : List Aabb) (dt : ℚ) (i : Nat),
      i < objects.length →
      (objects.getD i defaultObject).body.on_ground = true →
      ((step objects static_obs dt).1.getD i defaultObject).body.on_ground = true) :=
  ⟨fun _ h => apply_gravity_of_grounded h,
   fun body dt => integrate_on_ground body dt,
   fun _ collider obstacles h => resolve_aabb_collisions_on_ground collider obstacles h,
   fun a b => ⟨resolve_pair_on_ground_fst a b, resolve_pair_on_ground_snd a b⟩,
   fun objects static_obs dt i hi h => step_getD_on_ground objects static_obs dt i hi h⟩

/-- Witness for C3: each preservation clause applied at a concrete grounded
body. -/
theorem c3_on_ground_invariant_witness :
    apply_gravity ⟨⟨0, 1, 0⟩, ⟨0, 0, 0⟩, true, 2, ⟨0, 0, 0⟩⟩ =
      ⟨⟨0, 1, 0⟩, ⟨0, 0, 0⟩, true, 2, ⟨0, 0, 0⟩⟩ ∧
    (resolve_aabb_collisions ⟨⟨0, 1, 0⟩, ⟨0, 0, 0⟩, true, 2, ⟨0, 0, 0⟩⟩
      ⟨⟨1, 1, 1⟩⟩ [⟨⟨0, 0, 0⟩, ⟨1, 1, 1⟩⟩]).on_ground = true ∧
    ((step [⟨⟨⟨0, 1, 0⟩, ⟨0, 0, 0⟩, true, 2, ⟨0, 0, 0⟩⟩, ⟨⟨1, 1, 1⟩⟩⟩]
        [] 1).1.getD 0 defaultObject).body.on_ground = true :=
  ⟨c3_on_ground_invariant.1 _ rfl,
   c3_on_ground_invariant.2.2.1 _ ⟨⟨1, 1, 1⟩⟩ [⟨⟨0, 0, 0⟩, ⟨1, 1, 1⟩⟩] rfl,
   c3_on_ground_invariant.2.2.2.2 _ [] 1 0 (by norm_num) rfl⟩

/-- C4 counterexample: a concrete vertical collision with positive push
direction (body `a` lands on body `b`); `resolve_pair` detects the
collision but marks neither body grounded, while the claim says exactly one
of the two has `on_ground` set to true by the call. -/
theorem c4_counterexample :
    (resolve_pair ⟨⟨⟨0, 3 / 2, 0⟩, ⟨0, -1, 0⟩, false, 1, ⟨0, 0, 0⟩⟩, ⟨⟨1, 1, 1⟩⟩⟩
      ⟨⟨⟨0, 0, 0⟩, ⟨0, 0, 0⟩, false, 1, ⟨0, 0, 0⟩⟩, ⟨⟨1, 1, 1⟩⟩⟩).2.2 = true ∧
    (resolve_pair ⟨⟨⟨0, 3 / 2, 0⟩, ⟨0, -1, 0⟩, false, 1, ⟨0, 0, 0⟩⟩, ⟨⟨1, 1, 1⟩⟩⟩
      ⟨⟨⟨0, 0, 0⟩, ⟨0, 0, 0⟩, false, 1, ⟨0, 0, 0⟩⟩, ⟨⟨1, 1, 1⟩⟩⟩).1.body.on_ground = false ∧
    (resolve_pair ⟨⟨⟨0, 3 / 2, 0⟩, ⟨0, -1, 0⟩, false, 1, ⟨0, 0, 0⟩⟩, ⟨⟨1, 1, 1⟩⟩⟩
      ⟨⟨⟨0, 0, 0⟩, ⟨0, 0, 0⟩, false, 1, ⟨0, 0, 0⟩⟩, ⟨⟨1, 1, 1⟩⟩⟩).2.1.body.on_ground = false := by
  norm_num [resolve_pair, pairOverlap, pairDelta, Vec3.add, Vec3.sub,
    Vec3.abs2, Vec3.rabs]

/-- C4 amended: for every pair resolved by `resolve_pair`, on every axis,
neither body's `on_ground` is modified: both bodies keep their incoming
values; the pairwise resolver marks nobody grounded. -/
theorem c4_amended (a b : PhysicsObject) :
    (resolve_pair a b).1.body.on_ground = a.body.on_ground ∧
    (resolve_pair a b).2.1.body.on_ground = b.body.on_ground :=
  ⟨resolve_pair_on_ground_fst a b, resolve_pair_on_ground_snd a b⟩

/-- C5 counterexample: a collision with `overlap = (1/2, 1/2, 9/5)`
(`overlap.x = overlap.y ≤ overlap.z`): the claim says the X axis is chosen,
which would zero `velocity.x` and snap `position.x`; the code instead takes
the Y branch (`overlap.x < overlap.y` is false), leaving X untouched — and
with `overlap = (9/5, 1/2, 1/2)` (`overlap.y = overlap.z ≤ overlap.x`) the
claim says Y is chosen, but the code takes the Z branch, leaving Y
untouched. -/
theorem c5_counterexample :
    (resolve_aabb_collisions ⟨⟨3 / 2, 3 / 2, 1 / 5⟩, ⟨7, 9, 11⟩, false, 1, ⟨0, 0, 0⟩⟩
      ⟨⟨1, 1, 1⟩⟩ [⟨⟨0, 0, 0⟩, ⟨1, 1, 1⟩⟩]).velocity.x = 7 ∧
    (resolve_aabb_collisions ⟨⟨3 / 2, 3 / 2, 1 / 5⟩, ⟨7, 9, 11⟩, false, 1, ⟨0, 0, 0⟩⟩
      ⟨⟨1, 1, 1⟩⟩ [⟨⟨0, 0, 0⟩, ⟨1, 1, 1⟩⟩]).position.x = 3 / 2 ∧
    (resolve_aabb_collisions ⟨⟨3 / 2, 3 / 2, 1 / 5⟩, ⟨7, 9, 11⟩, false, 1, ⟨0, 0, 0⟩⟩
      ⟨⟨1, 1, 1⟩⟩ [⟨⟨0, 0, 0⟩, ⟨1, 1, 1⟩⟩]).velocity.y = 0 ∧
    (resolve_aabb_collisions ⟨⟨1 / 5, 3 / 2, 3 / 2⟩, ⟨7, 9, 11⟩, false, 1, ⟨0, 0, 0⟩⟩
      ⟨⟨1, 1, 1⟩⟩ [⟨⟨0, 0, 0⟩, ⟨1, 1, 1⟩⟩]).velocity.y = 9 ∧
    (resolve_aabb_collisions ⟨⟨1 / 5, 3 / 2, 3 / 2⟩, ⟨7, 9, 11⟩, false, 1, ⟨0, 0, 0⟩⟩
      ⟨⟨1, 1, 1⟩⟩ [⟨⟨0, 0, 0⟩, ⟨1, 1, 1⟩⟩]).velocity.z = 0 := by
  norm_num [resolve_aabb_collisions, resolve_one, overlapOf, deltaOf,
    Vec3.add, Vec3.sub, Vec3.abs2, Vec3.rabs]

/-- C5 amended: ties in the separation-axis selection resolve toward the
later axis, not toward X then Y: with `overlap.x = overlap.y < overlap.z`
the Y axis is chosen, and with `overlap.y = overlap.z` both at most
`overlap.x` the Z axis is chosen — in `resolve_aabb_collisions` and
`resolve_pair` alike. -/
theorem c5_amended :
    (∀ (body : RigidBody) (collider : Collider) (obs : Aabb),
      (overlapOf body collider obs).x > 0 ∧ (overlapOf body collider obs).y > 0 ∧
        (overlapOf body collider obs).z > 0 →
      (overlapOf body collider obs).x = (overlapOf body collider obs).y →
      (overlapOf body collider obs).y < (overlapOf body collider obs).z →
      (resolve_aabb_collisions body collider [obs]).velocity.y = 0 ∧
      (resolve_aabb_collisions body collider [obs]).velocity.x = body.velocity.x ∧
      (resolve_aabb_collisions body collider [obs]).position.x = body.position.x ∧
      (resolve_aabb_collisions body collider [obs]).position.z = body.position.z ∧
      (resolve_aabb_collisions body collider [obs]).position.y =
        obs.center.y + (if (deltaOf body obs).y > 0 then (1 : ℚ) else -1) *
          (obs.half_extents.y + collider.half_extents.y)) ∧
    (∀ (body : RigidBody) (collider : Collider) (obs : Aabb),
      (overlapOf body collider obs).x > 0 ∧ (overlapOf body collider obs).y > 0 ∧
        (overlapOf body collider obs).z > 0 →
      (overlapOf body collider obs).y = (overlapOf body collider obs).z →
      (overlapOf body collider obs).y ≤ (overlapOf body collider obs).x →
      (overlapOf body collider obs).z ≤ (overlapOf body collider obs).x →
      (resolve_aabb_collisions body collider [obs]).velocity.z = 0 ∧
      (resolve_aabb_collisions body collider [obs]).velocity.y = body.velocity.y ∧
      (resolve_aabb_collisions body collider [obs]).position.y = body.position.y ∧
      (resolve_aabb_collisions body collider [obs]).position.x = body.position.x ∧
      (resolve_aabb_collisions body collider [obs]).position.z =
        obs.center.z + (if (deltaOf body obs).z > 0 then (1 : ℚ) else -1) *
          (obs.half_extents.z + collider.half_extents.z)) ∧
    (∀ a b : PhysicsObject,
      (pairOverlap a b).x > 0 ∧ (pairOverlap a b).y > 0 ∧ (pairOverlap a b).z > 0 →
      (pairOverlap a b).x = (pairOverlap a b).y →
      (pairOverlap a b).y < (pairOverlap a b).z →
      (resolve_pair a b).1.body.velocity.y = 0 ∧
      (resolve_pair a b).2.1.body.velocity.y = 0 ∧
      (resolve_pair a b).1.body.velocity.x = a.body.velocity.x ∧
      (resolve_pair a b).2.1.body.velocity.x = b.body.velocity.x ∧
      (resolve_pair a b).1.body.position.x = a.body.position.x ∧
      (resolve_pair a b).2.1.body.position.x = b.body.position.x) ∧
    (∀ a b : PhysicsObject,
      (pairOverlap a b).x > 0 ∧ (pairOverlap a b).y > 0 ∧ (pairOverlap a b).z > 0 →
      (pairOverlap a b).y = (pairOverlap a b).z →
      (pairOverlap a b).y ≤ (pairOverlap a b).x →
      (pairOverlap a b).z ≤ (pairOverlap a b).x →
      (resolve_pair a b).1.body.velocity.z = 0 ∧
      (resolve_pair a b).2.1.body.velocity.z = 0 ∧
      (resolve_pair a b).1.body.velocity.y = a.body.velocity.y ∧
      (resolve_pair a b).2.1.body.velocity.y = b.body.velocity.y ∧
      (resolve_pair a b).1.body.position.y = a.body.position.y ∧
      (resolve_pair a b).2.1.body.position.y = b.body.position.y) := by
  refine ⟨?_, ?_, ?_, ?_⟩
  · intro body collider obs hall hxy hyz
    rw [resolve_aabb_collisions_singleton]
    unfold resolve_one
    dsimp only
    rw [if_pos hall,
      if_neg (by intro hc; rw [hxy] at hc; exact lt_irrefl _ hc.1),
      if_pos hyz]
    exact ⟨rfl, rfl, rfl, rfl, rfl⟩
  · intro body collider obs hall hyzeq hyx hzx
    rw [resolve_aabb_collisions_singleton]
    unfold resolve_one
    dsimp only
    rw [if_pos hall,
      if_neg (by intro hc; exact absurd hc.1 (not_lt.mpr (hyzeq ▸ hyx))),
      if_neg (by rw [hyzeq]; exact lt_irrefl _)]
    exact ⟨rfl, rfl, rfl, rfl, rfl⟩
  · intro a b hall hxy hyz
    unfold resolve_pair
    dsimp only
    rw [if_pos hall,
      if_neg (by intro hc; rw [hxy] at hc; exact lt_irrefl _ hc.1),
      if_pos hyz]
    exact ⟨rfl, rfl, rfl, rfl, rfl, rfl⟩
  · intro a b hall hyzeq hyx hzx
    unfold resolve_pair
    dsimp only
    rw [if_pos hall,
      if_neg (by intro hc; exact absurd hc.1 (not_lt.mpr (hyzeq ▸ hyx))),
      if_neg (by rw [hyzeq]; exact lt_irrefl _)]
    exact ⟨rfl, rfl, rfl, rfl, rfl, rfl⟩

/-- Witness for C5 amended: concrete ties, one per clause. -/
theorem c5_amended_witness :
    (resolve_aabb_collisions ⟨⟨3 / 2, 3 / 2, 1 / 5⟩, ⟨7, 9, 11⟩, false, 1, ⟨0, 0, 0⟩⟩
      ⟨⟨1, 1, 1⟩⟩ [⟨⟨0, 0, 0⟩, ⟨1, 1, 1⟩⟩]).velocity.y = 0 ∧
    (resolve_aabb_collisions ⟨⟨1 / 5, 3 / 2, 3 / 2⟩, ⟨7, 9, 11⟩, false, 1, ⟨0, 0, 0⟩⟩
      ⟨⟨1, 1, 1⟩⟩ [⟨⟨0, 0, 0⟩, ⟨1, 1, 1⟩⟩]).velocity.z = 0 ∧
    (resolve_pair ⟨⟨⟨3 / 2, 3 / 2, 1 / 5⟩, ⟨7, 9, 11⟩, false, 1, ⟨0, 0, 0⟩⟩, ⟨⟨1, 1, 1⟩⟩⟩
      ⟨⟨⟨0, 0, 0⟩, ⟨0, 0, 0⟩, false, 1, ⟨0, 0, 0⟩⟩, ⟨⟨1, 1, 1⟩⟩⟩).1.body.velocity.y = 0 ∧
    (resolve_pair ⟨⟨⟨1 / 5, 3 / 2, 3 / 2⟩, ⟨7, 9, 11⟩, false, 1, ⟨0, 0, 0⟩⟩, ⟨⟨1, 1, 1⟩⟩⟩
      ⟨⟨⟨0, 0, 0⟩, ⟨0, 0, 0⟩, false, 1, ⟨0, 0, 0⟩⟩, ⟨⟨1, 1, 1⟩⟩⟩).1.body.velocity.z = 0 :=
  ⟨(c5_amended.1 _ _ _
      (by norm_num [overlapOf, deltaOf, Vec3.abs2, Vec3.add, Vec3.sub, Vec3.rabs])
      (by norm_num [overlapOf, deltaOf, Vec3.abs2, Vec3.add, Vec3.sub, Vec3.rabs])
      (by norm_num [overlapOf, deltaOf, Vec3.abs2, Vec3.add, Vec3.sub, Vec3.rabs])).1,
   (c5_amended.2.1 _ _ _
      (by norm_num [overlapOf, deltaOf, Vec3.abs2, Vec3.add, Vec3.sub, Vec3.rabs])
      (by norm_num [overlapOf, deltaOf, Vec3.abs2, Vec3.add, Vec3.sub, Vec3.rabs])
      (by norm_num [overlapOf, deltaOf, Vec3.abs2, Vec3.add, Vec3.sub, Vec3.rabs])
      (by norm_num [overlapOf, deltaOf, Vec3.abs2, Vec3.add, Vec3.sub, Vec3.rabs])).1,
   (c5_amended.2.2.1 _ _
      (by norm_num [pairOverlap, pairDelta, Vec3.abs2, Vec3.add, Vec3.sub, Vec3.rabs])
      (by norm_num [pairOverlap, pairDelta, Vec3.abs2, Vec3.add, Vec3.sub, Vec3.rabs])
      (by norm_num [pairOverlap, pairDelta, Vec3.abs2, Vec3.add, Vec3.sub, Vec3.rabs])).1,
   (c5_amended.2.2.2 _ _
      (by norm_num [pairOverlap, pairDelta, Vec3.abs2, Vec3.add, Vec3.sub, Vec3.rabs])
      (by norm_num [pairOverlap, pairDelta, Vec3.abs2, Vec3.add, Vec3.sub, Vec3.rabs])
      (by norm_num [pairOverlap, pairDelta, Vec3.abs2, Vec3.add, Vec3.sub, Vec3.rabs])
      (by norm_num [pairOverlap, pairDelta, Vec3.abs2, Vec3.add, Vec3.sub, Vec3.rabs])).1⟩

/-- C6: `integrate` is semi-implicit Euler — for mass > 0 it updates the
velocity by `(force / mass) * dt` first, then the position by the new
velocity times `dt`, and resets the force to zero; with zero initial
velocity the resulting velocity is `(F / mass) * dt` and the position
advances by exactly that new velocity times `dt`. -/
theorem c6_semi_implicit_euler (body : RigidBody) (dt : ℚ) (hm : body.mass > 0) :
    (integrate body dt).velocity =
      body.velocity.add ((body.force.sdiv body.mass).smul dt) ∧
    (integrate body dt).position = body.position.add
      ((body.velocity.add ((body.force.sdiv body.mass).smul dt)).smul dt) ∧
    (integrate body dt).force = Vec3.zero ∧
    (body.velocity = Vec3.zero →
      (integrate body dt).velocity = (body.force.sdiv body.mass).smul dt ∧
      (integrate body dt).position = body.position.add
        (((body.force.sdiv body.mass).smul dt).smul dt)) := by
  refine ⟨rfl, rfl, rfl, fun hv => ⟨?_, ?_⟩⟩
  · unfold integrate
    dsimp only
    rw [hv, vec_zero_add]
  · unfold integrate
    dsimp only
    rw [hv, vec_zero_add]

/-- Witness for C6: mass 2, force `(0, -10, 0)`, zero initial velocity,
`dt = 1/2`: velocity becomes `(0, -5/2, 0)` and the position advances by
`(0, -5/4, 0)`. -/
theorem c6_semi_implicit_euler_witness :
    (integrate ⟨⟨0, 0, 0⟩, ⟨0, 0, 0⟩, false, 2, ⟨0, -10, 0⟩⟩ (1 / 2)).velocity =
      ⟨0, -(5 / 2), 0⟩ ∧
    (integrate ⟨⟨0, 0, 0⟩, ⟨0, 0, 0⟩, false, 2, ⟨0, -10, 0⟩⟩ (1 / 2)).position =
      ⟨0, -(5 / 4), 0⟩ ∧
    (integrate ⟨⟨0, 0, 0⟩, ⟨0, 0, 0⟩, false, 2, ⟨0, -10, 0⟩⟩ (1 / 2)).force = Vec3.zero := by
  have h := c6_semi_implicit_euler ⟨⟨0, 0, 0⟩, ⟨0, 0, 0⟩, false, 2, ⟨0, -10, 0⟩⟩ (1 / 2)
    (by norm_num)
  obtain ⟨hv, hp⟩ := h.2.2.2 rfl
  refine ⟨?_, ?_, h.2.2.1⟩
  · rw [hv]
    norm_num [Vec3.sdiv, Vec3.smul]
  · rw [hp]
    norm_num [Vec3.sdiv, Vec3.smul, Vec3.add]

/-- C7: a pair of AABBs separated on at least one axis (some overlap
component not positive) triggers no resolution: `resolve_aabb_collisions`
leaves the body unchanged for that obstacle, `resolve_pair` returns `false`
and leaves both bodies unchanged, the pairwise loop body of `step` leaves
its whole state (objects and reported pairs) unchanged, and when every pair
is separated after the static pass, `step` reports no pair at all. -/
theorem c7_no_false_collision :
    (∀ (body : RigidBody) (collider : Collider) (obs : Aabb),
      ¬((overlapOf body collider obs).x > 0 ∧ (overlapOf body collider obs).y > 0 ∧
        (overlapOf body collider obs).z > 0) →
      resolve_aabb_collisions body collider [obs] = body) ∧
    (∀ a b : PhysicsObject,
      ¬((pairOverlap a b).x > 0 ∧ (pairOverlap a b).y > 0 ∧ (pairOverlap a b).z > 0) →
      resolve_pair a b = (a, b, false)) ∧
    (∀ (st : List PhysicsObject × List (Nat × Nat)) (ij : Nat × Nat),
      ¬((pairOverlap (st.1.getD ij.1 defaultObject) (st.1.getD ij.2 defaultObject)).x > 0 ∧
        (pairOverlap (st.1.getD ij.1 defaultObject) (st.1.getD ij.2 defaultObject)).y > 0 ∧
        (pairOverlap (st.1.getD ij.1 defaultObject) (st.1.getD ij.2 defaultObject)).z > 0) →
      pairStep st ij = st) ∧
    (∀ (objects : List PhysicsObject) (static_obs : List Aabb) (dt : ℚ),
      (∀ ij ∈ pairIndices objects.length,
        ¬((pairOverlap ((staticPass objects static_obs dt).getD ij.1 defaultObject)
            ((staticPass objects static_obs dt).getD ij.2 defaultObject)).x > 0 ∧
          (pairOverlap ((staticPass objects static_obs dt).getD ij.1 defaultObject)
            ((staticPass objects static_obs dt).getD ij.2 defaultObject)).y > 0 ∧
          (pairOverlap ((staticPass objects static_obs dt).getD ij.1 defaultObject)
            ((staticPass objects static_obs dt).getD ij.2 defaultObject)).z > 0)) →
      (step objects static_obs dt).2 = []) := by
  refine ⟨?_, ?_, ?_, ?_⟩
  · intro body collider obs h
    rw [resolve_aabb_collisions_singleton]
    exact resolve_one_of_no_overlap h
  · intro a b h
    exact resolve_pair_of_no_overlap h
  · intro st ij h
    exact pairStep_of_no_overlap st ij h
  · intro objects static_obs dt h
    have hconst : (pairIndices objects.length).foldl pairStep
        (staticPass objects static_obs dt, ([] : List (Nat × Nat))) =
        (staticPass objects static_obs dt, []) :=
      foldl_pairStep_const _ _ (fun ij hij => pairStep_of_no_overlap _ ij (h ij hij))
    unfold step pairPass
    rw [staticPass_length, hconst]

/-- Witness for C7: a body 10 units above a unit cube obstacle, and two
objects 10 units apart: no resolution, no reported pair. -/
theorem c7_no_false_collision_witness :
    resolve_aabb_collisions ⟨⟨0, 10, 0⟩, ⟨1, 2, 3⟩, false, 1, ⟨0, 0, 0⟩⟩
      ⟨⟨1, 1, 1⟩⟩ [⟨⟨0, 0, 0⟩, ⟨1, 1, 1⟩⟩] =
      ⟨⟨0, 10, 0⟩, ⟨1, 2, 3⟩, false, 1, ⟨0, 0, 0⟩⟩ ∧
    resolve_pair ⟨⟨⟨0, 10, 0⟩, ⟨0, 0, 0⟩, false, 1, ⟨0, 0, 0⟩⟩, ⟨⟨1, 1, 1⟩⟩⟩
      ⟨⟨⟨0, 0, 0⟩, ⟨0, 0, 0⟩, false, 1, ⟨0, 0, 0⟩⟩, ⟨⟨1, 1, 1⟩⟩⟩ =
      (⟨⟨⟨0, 10, 0⟩, ⟨0, 0, 0⟩, false, 1, ⟨0, 0, 0⟩⟩, ⟨⟨1, 1, 1⟩⟩⟩,
       ⟨⟨⟨0, 0, 0⟩, ⟨0, 0, 0⟩, false, 1, ⟨0, 0, 0⟩⟩, ⟨⟨1, 1, 1⟩⟩⟩, false) ∧
    (step [⟨⟨⟨0, 10, 0⟩, ⟨0, 0, 0⟩, true, 1, ⟨0, 0, 0⟩⟩, ⟨⟨1, 1, 1⟩⟩⟩,
           ⟨⟨⟨0, 0, 0⟩, ⟨0, 0, 0⟩, true, 1, ⟨0, 0, 0⟩⟩, ⟨⟨1, 1, 1⟩⟩⟩] [] 0).2 = [] := by
  refine ⟨?_, ?_, ?_⟩
  · exact c7_no_false_collision.1 _ _ _
      (by norm_num [overlapOf, deltaOf, Vec3.abs2, Vec3.add, Vec3.sub, Vec3.rabs])
  · exact c7_no_false_collision.2.1 _ _
      (by norm_num [pairOverlap, pairDelta, Vec3.abs2, Vec3.add, Vec3.sub, Vec3.rabs])
  · refine c7_no_false_collision.2.2.2 _ [] 0 ?_
    intro ij hij
    have hij' : ij = (0, 1) := by
      simpa [pairIndices, List.range_succ] using hij
    subst hij'
    norm_num [staticPass, pairOverlap, pairDelta, Vec3.abs2, Vec3.add, Vec3.sub,
      Vec3.rabs, Vec3.smul, Vec3.sdiv, integrate, apply_gravity,
      resolve_aabb_collisions, List.getD]

/-- C8: for two colliding bodies, `resolve_pair` splits the separation
evenly along the chosen axis: each position changes by exactly half the
overlap on that axis, the two displacements are equal in magnitude and
opposite in sign (direction given by the sign of `delta`), and the velocity
component along that axis is zeroed on both bodies. -/
theorem c8_symmetric_split (a b : PhysicsObject)
    (hall : (pairOverlap a b).x > 0 ∧ (pairOverlap a b).y > 0 ∧ (pairOverlap a b).z > 0) :
    ((pairOverlap a b).x < (pairOverlap a b).y ∧ (pairOverlap a b).x < (pairOverlap a b).z →
      (resolve_pair a b).1.body.position.x = a.body.position.x +
        (if (pairDelta a b).x > 0 then (1 : ℚ) else -1) * ((pairOverlap a b).x * (1 / 2)) ∧
      (resolve_pair a b).2.1.body.position.x = b.body.position.x -
        (if (pairDelta a b).x > 0 then (1 : ℚ) else -1) * ((pairOverlap a b).x * (1 / 2)) ∧
      (resolve_pair a b).1.body.position.x - a.body.position.x =
        -((resolve_pair a b).2.1.body.position.x - b.body.position.x) ∧
      (resolve_pair a b).1.body.velocity.x = 0 ∧
      (resolve_pair a b).2.1.body.velocity.x = 0 ∧
      (resolve_pair a b).2.2 = true) ∧
    (¬((pairOverlap a b).x < (pairOverlap a b).y ∧ (pairOverlap a b).x < (pairOverlap a b).z) →
      (pairOverlap a b).y < (pairOverlap a b).z →
      (resolve_pair a b).1.body.position.y = a.body.position.y +
        (if (pairDelta a b).y > 0 then (1 : ℚ) else -1) * ((pairOverlap a b).y * (1 / 2)) ∧
      (resolve_pair a b).2.1.body.position.y = b.body.position.y -
        (if (pairDelta a b).y > 0 then (1 : ℚ) else -1) * ((pairOverlap a b).y * (1 / 2)) ∧
      (resolve_pair a b).1.body.position.y - a.body.position.y =
        -((resolve_pair a b).2.1.body.position.y - b.body.position.y) ∧
      (resolve_pair a b).1.body.velocity.y = 0 ∧
      (resolve_pair a b).2.1.body.velocity.y = 0 ∧
      (resolve_pair a b).2.2 = true) ∧
    (¬((pairOverlap a b).x < (pairOverlap a b).y ∧ (pairOverlap a b).x < (pairOverlap a b).z) →
      ¬((pairOverlap a b).y < (pairOverlap a b).z) →
      (resolve_pair a b).1.body.position.z = a.body.position.z +
        (if (pairDelta a b).z > 0 then (1 : ℚ) else -1) * ((pairOverlap a b).z * (1 / 2)) ∧
      (resolve_pair a b).2.1.body.position.z = b.body.position.z -
        (if (pairDelta a b).z > 0 then (1 : ℚ) else -1) * ((pairOverlap a b).z * (1 / 2)) ∧
      (resolve_pair a b).1.body.position.z - a.body.position.z =
        -((resolve_pair a b).2.1.body.position.z - b.body.position.z) ∧
      (resolve_pair a b).1.body.velocity.z = 0 ∧
      (resolve_pair a b).2.1.body.velocity.z = 0 ∧
      (resolve_pair a b).2.2 = true) := by
  refine ⟨fun hx => ?_, fun hnx hy => ?_, fun hnx hny => ?_⟩
  · unfold resolve_pair
    dsimp only
    rw [if_pos hall, if_pos hx]
    refine ⟨rfl, rfl, ?_, rfl, rfl, rfl⟩
    dsimp only
    ring
  · unfold resolve_pair
    dsimp only
    rw [if_pos hall, if_neg hnx, if_pos hy]
    refine ⟨rfl, rfl, ?_, rfl, rfl, rfl⟩
    dsimp only
    ring
  · unfold resolve_pair
    dsimp only
    rw [if_pos hall, if_neg hnx, if_neg hny]
    refine ⟨rfl, rfl, ?_, rfl, rfl, rfl⟩
    dsimp only
    ring

/-- Witness for C8: the vertical collision of two unit cubes with centers
`(0, 3/2, 0)` and `(0, 0, 0)`: overlap `1/2` on Y, each body displaced by
`1/4` in opposite directions, both vertical velocities zeroed. -/
theorem c8_symmetric_split_witness :
    (resolve_pair ⟨⟨⟨0, 3 / 2, 0⟩, ⟨0, -1, 0⟩, false, 1, ⟨0, 0, 0⟩⟩, ⟨⟨1, 1, 1⟩⟩⟩
      ⟨⟨⟨0, 0, 0⟩, ⟨0, 1, 0⟩, false, 1, ⟨0, 0, 0⟩⟩, ⟨⟨1, 1, 1⟩⟩⟩).1.body.position.y =
      3 / 2 + 1 * (1 / 2 * (1 / 2)) ∧
    (resolve_pair ⟨⟨⟨0, 3 / 2, 0⟩, ⟨0, -1, 0⟩, false, 1, ⟨0, 0, 0⟩⟩, ⟨⟨1, 1, 1⟩⟩⟩
      ⟨⟨⟨0, 0, 0⟩, ⟨0, 1, 0⟩, false, 1, ⟨0, 0, 0⟩⟩, ⟨⟨1, 1, 1⟩⟩⟩).2.1.body.position.y =
      0 - 1 * (1 / 2 * (1 / 2)) ∧
    (resolve_pair ⟨⟨⟨0, 3 / 2, 0⟩, ⟨0, -1, 0⟩, false, 1, ⟨0, 0, 0⟩⟩, ⟨⟨1, 1, 1⟩⟩⟩
      ⟨⟨⟨0, 0, 0⟩, ⟨0, 1, 0⟩, false, 1, ⟨0, 0, 0⟩⟩, ⟨⟨1, 1, 1⟩⟩⟩).1.body.velocity.y = 0 ∧
    (resolve_pair ⟨⟨⟨0, 3 / 2, 0⟩, ⟨0, -1, 0⟩, false, 1, ⟨0, 0, 0⟩⟩, ⟨⟨1, 1, 1⟩⟩⟩
      ⟨⟨⟨0, 0, 0⟩, ⟨0, 1, 0⟩, false, 1, ⟨0, 0, 0⟩⟩, ⟨⟨1, 1, 1⟩⟩⟩).2.1.body.velocity.y = 0 := by
  have h := (c8_symmetric_split
    ⟨⟨⟨0, 3 / 2, 0⟩, ⟨0, -1, 0⟩, false, 1, ⟨0, 0, 0⟩⟩, ⟨⟨1, 1, 1⟩⟩⟩
    ⟨⟨⟨0, 0, 0⟩, ⟨0, 1, 0⟩, false, 1, ⟨0, 0, 0⟩⟩, ⟨⟨1, 1, 1⟩⟩⟩
    (by norm_num [pairOverlap, pairDelta, Vec3.abs2, Vec3.add, Vec3.sub, Vec3.rabs])).2.1
    (by norm_num [pairOverlap, pairDelta, Vec3.abs2, Vec3.add, Vec3.sub, Vec3.rabs])
    (by norm_num [pairOverlap, pairDelta, Vec3.abs2, Vec3.add, Vec3.sub, Vec3.rabs])
  obtain ⟨h1, h2, _, h4, h5, _⟩ := h
  refine ⟨?_, ?_, h4, h5⟩
  · rw [h1]
    norm_num [pairOverlap, pairDelta, Vec3.abs2, Vec3.add, Vec3.sub, Vec3.rabs]
  · rw [h2]
    norm_num [pairOverlap, pairDelta, Vec3.abs2, Vec3.add, Vec3.sub, Vec3.rabs]

/-- C9: `step` returns exactly the pairs for which the pairwise resolution
detected a collision, with `i < j`, in ascending lexicographic order of
`(i, j)`: a pair `p` of the loop's index sequence (any split
`l₁ ++ p :: l₂` of it) is in the returned list if and only if
`resolve_pair` detected a collision on the states current when `p` was
visited (after the static pass and the resolution of the earlier pairs
`l₁`), every returned pair belongs to that index sequence, and in the
concrete three-object scenario where after the static pass only objects 0
and 2 overlap, `step` returns exactly `[(0, 2)]` and the pairwise pass
does not modify object 1. -/
theorem c9_step_pair_reporting :
    (∀ (objects : List PhysicsObject) (static_obs : List Aabb) (dt : ℚ)
        (l₁ : List (Nat × Nat)) (p : Nat × Nat) (l₂ : List (Nat × Nat)),
      pairIndices objects.length = l₁ ++ p :: l₂ →
      (p ∈ (step objects static_obs dt).2 ↔
        (resolve_pair
          ((l₁.foldl pairStep (staticPass objects static_obs dt, [])).1.getD
            p.1 defaultObject)
          ((l₁.foldl pairStep (staticPass objects static_obs dt, [])).1.getD
            p.2 defaultObject)).2.2 = true)) ∧
    (∀ (objects : List PhysicsObject) (static_obs : List Aabb) (dt : ℚ),
      ∀ p ∈ (step objects static_obs dt).2, p ∈ pairIndices objects.length) ∧
    (∀ (objects : List PhysicsObject) (static_obs : List Aabb) (dt : ℚ),
      ∀ p ∈ (step objects static_obs dt).2, p.1 < p.2) ∧
    (∀ (objects : List PhysicsObject) (static_obs : List Aabb) (dt : ℚ),
      ((step objects static_obs dt).2).Pairwise
        (fun p q => p.1 < q.1 ∨ (p.1 = q.1 ∧ p.2 < q.2))) ∧
    (step threeObjects [] 0).2 = [(0, 2)] ∧
    (step threeObjects [] 0).1.getD 1 defaultObject =
      (staticPass threeObjects [] 0).getD 1 defaultObject := by
  refine ⟨?_, ?_, ?_, ?_, ?_, ?_⟩
  · intro objects so dt l₁ p l₂ hsplit
    exact step_mem_pairs_iff objects so dt l₁ p l₂ hsplit
  · intro objects so dt p hp
    exact (step_pairs_sublist objects so dt).subset hp
  · intro objects so dt p hp
    exact pairIndices_fst_lt_snd ((step_pairs_sublist objects so dt).subset hp)
  · intro objects so dt
    exact List.Pairwise.sublist (step_pairs_sublist objects so dt)
      (pairIndices_pairwise objects.length)
  · norm_num [step, staticPass, pairPass, pairIndices, pairStep, threeObjects, cube,
      RigidBody.new, resolve_aabb_collisions, resolve_pair, pairOverlap, pairDelta,
      integrate, apply_gravity, GRAVITY, Vec3.add, Vec3.sub, Vec3.smul, Vec3.sdiv,
      Vec3.abs2, Vec3.rabs, Vec3.zero, List.range_succ, List.range'_succ, List.getD]
  · norm_num [step, staticPass, pairPass, pairIndices, pairStep, threeObjects, cube,
      RigidBody.new, resolve_aabb_collisions, resolve_pair, pairOverlap, pairDelta,
      integrate, apply_gravity, GRAVITY, Vec3.add, Vec3.sub, Vec3.smul, Vec3.sdiv,
      Vec3.abs2, Vec3.rabs, Vec3.zero, List.range_succ, List.range'_succ, List.getD]

/-- Witness for C9: in the three-object scenario, the pair `(0, 2)`
(split of the index sequence `[(0,1)] ++ (0,2) :: [(1,2)]`) is reported,
belongs to the index sequence, has its first index below its second, and
the iff yields that `resolve_pair` detected its collision at that moment. -/
theorem c9_step_pair_reporting_witness :
    (0, 2) ∈ (step threeObjects [] 0).2 ∧
    (0, 2) ∈ pairIndices threeObjects.length ∧
    (0 : Nat) < 2 ∧
    (resolve_pair
      (([((0 : Nat), (1 : Nat))].foldl pairStep
        (staticPass threeObjects [] 0, [])).1.getD 0 defaultObject)
      (([((0 : Nat), (1 : Nat))].foldl pairStep
        (staticPass threeObjects [] 0, [])).1.getD 2 defaultObject)).2.2 = true := by
  have hmem : (0, 2) ∈ (step threeObjects [] 0).2 := by
    rw [c9_step_pair_reporting.2.2.2.2.1]
    exact List.mem_singleton.mpr rfl
  refine ⟨hmem, ?_, ?_, ?_⟩
  · exact c9_step_pair_reporting.2.1 threeObjects [] 0 (0, 2) hmem
  · exact c9_step_pair_reporting.2.2.1 threeObjects [] 0 (0, 2) hmem
  · exact (c9_step_pair_reporting.1 threeObjects [] 0
      [(0, 1)] (0, 2) [(1, 2)] rfl).mp hmem

/-- The first frame of the stability scenario of
`tests/enemy_stability.rs` lands the enemy exactly on the floor top. -/
theorem enemyStep_first : enemyStep enemyBody0 = enemyLanded := by
  norm_num [enemyStep, enemyBody0, enemyCollider, floorObs, enemyLanded,
    RigidBody.new, step, staticPass, pairPass, pairIndices, pairStep,
    resolve_aabb_collisions, resolve_one, overlapOf, deltaOf, integrate,
    apply_gravity, GRAVITY, Vec3.add, Vec3.sub, Vec3.smul, Vec3.sdiv,
    Vec3.abs2, Vec3.rabs, Vec3.zero, List.range_succ, List.range'_succ, List.getD]

/-- The settled state is a fixed point of the scenario's frame step. -/
theorem enemyStep_fixed : enemyStep enemyLanded = enemyLanded := by
  norm_num [enemyStep, enemyCollider, floorObs, enemyLanded,
    step, staticPass, pairPass, pairIndices, pairStep,
    resolve_aabb_collisions, resolve_one, overlapOf, deltaOf, integrate,
    apply_gravity, GRAVITY, Vec3.add, Vec3.sub, Vec3.smul, Vec3.sdiv,
    Vec3.abs2, Vec3.rabs, Vec3.zero, List.range_succ, List.range'_succ, List.getD]

theorem enemyTrace_eq_landed (n : Nat) : enemyTrace (n + 1) = enemyLanded := by
  unfold enemyTrace
  rw [Function.iterate_succ_apply, enemyStep_first]
  exact Function.iterate_fixed enemyStep_fixed n

theorem enemyTrace_y (n : Nat) : (enemyTrace n).position.y = 3 / 4 := by
  cases n with
  | zero => rfl
  | succ n =>
      rw [enemyTrace_eq_landed]
      rfl

/-- C10: in the scenario of `tests/enemy_stability.rs` (mass 80, start
`(8, 0.75, -8)`, collider half-extents `(0.5, 0.75, 0.5)`, floor centered
`(0, -0.5, 0)` with half-extents `(50, 0.5, 50)`, `dt = 1/60`), over 300
consecutive frames every frame-to-frame difference in `position.y` is
below `0.01` in absolute value (here each is exactly `0`). -/
theorem c10_long_run_stability (n : Nat) (h : n < 300) :
    |(enemyTrace (n + 1)).position.y - (enemyTrace n).position.y| < 1 / 100 := by
  rw [enemyTrace_y, enemyTrace_y]
  norm_num

/-- Witness for C10: the first frame delta. -/
theorem c10_long_run_stability_witness :
    (0 : Nat) < 300 ∧
    |(enemyTrace 1).position.y - (enemyTrace 0).position.y| < 1 / 100 :=
  ⟨by norm_num, c10_long_run_stability 0 (by norm_num)⟩

end AstroForge
